import Mathlib

/-!
# Verification of the Automated Powder Dispenser (APD) orchestration code

A shallow embedding, in Lean 4, of the parts of the APD repository that the
frozen claims C1..C10 are about:

* the program-run-state normalisation used by the two sequencing drivers
  (`winAuto.py` `_wait_robot_stopped`, `winJsonAuto.py` `_poll_program_state`);
* the completion-polling loops of both drivers;
* the pan-sensing statistics of `deviceScale.py` (`is_pan_empty`,
  `is_pan_present`) and the robot-arm pan gate (`winRobotArm.py`
  `_is_pan_empty`);
* the weight-reading chain (`get_weights` / `get_weight`);
* the dosing-job submission decision and the cancel escalation chain of
  `winScale.py`;
* the JSON plan parser of `winJsonAuto.py` and the plan-driver state machine;
* the P1 helper of `winRobotArm.py` together with the `UR3` facade of
  `deviceRobotArm.py` (method table, attribute lookup).

Machine floats of the Python source are modelled as rationals; the sample
standard deviation, which the source computes as `var ** 0.5`, is carried as
an explicit parameter constrained by `0 ≤ std` and `std ^ 2 = variance`
where a theorem needs it, so that every definition stays computable.
-/

namespace APD

/-! ## Python string helpers

`str.strip().upper()` as used by both polling loops.  The device strings are
ASCII, so ASCII-only `Char.toUpper` and the four ASCII whitespace characters
match the Python behaviour on every input the dashboard can produce. -/

/-- ASCII whitespace, as stripped by Python `str.strip` on dashboard replies. -/
def isSpaceChar (c : Char) : Bool :=
  c = ' ' || c = '\t' || c = '\n' || c = '\r'

/-- Python `str.strip` over the character list. -/
def stripChars (cs : List Char) : List Char :=
  ((cs.dropWhile isSpaceChar).reverse.dropWhile isSpaceChar).reverse

/-- Python `str.upper` (ASCII) over the character list. -/
def upperChars (cs : List Char) : List Char :=
  cs.map Char.toUpper

/-- Python `s.strip().upper()`. -/
def pyStripUpper (s : String) : String :=
  String.mk (upperChars (stripChars s.data))

/-- Python substring test `pat in hay` over character lists. -/
def containsSeq (hay pat : List Char) : Bool :=
  match hay with
  | [] => pat.isEmpty
  | _ :: t => pat.isPrefixOf hay || containsSeq t pat

/-- Python substring test `pat in hay` on strings. -/
def strContains (hay pat : String) : Bool :=
  containsSeq hay.data pat.data

/-! ## Program run state classification

`winJsonAuto.py` (`_poll_program_state`) and `winAuto.py`
(`_wait_robot_stopped`) both first try `robot_win._canon_prog_state(raw)`.
No class in the repository defines `_canon_prog_state`, so that attribute
access raises `AttributeError` on every call and the `except` branch always
runs.  The two `except` branches differ:

* `winJsonAuto.py` lines 556-565 classify into the four canonical values by
  substring tests (`canonJson` below);
* `winAuto.py` line 459 merely takes `str(raw or "").strip().upper()`
  (`canonAuto` below). -/

/-- Canonical program run state. -/
inductive RState where
  | RUNNING
  | PAUSED
  | STOPPED
  | UNKNOWN
deriving DecidableEq, Repr

/-- The canonical label of a run state (the string the classifier produces in
the Python source). -/
def rstateLabel : RState → String
  | .RUNNING => "RUNNING"
  | .PAUSED => "PAUSED"
  | .STOPPED => "STOPPED"
  | .UNKNOWN => "UNKNOWN"

/-- The fallback normalisation of `winJsonAuto._poll_program_state`:
uppercase-trim the raw text, then look for the substrings
RUNNING/PLAYING, PAUSE, STOP, in that order; otherwise UNKNOWN. -/
def canonJson (raw : String) : RState :=
  let up := pyStripUpper raw
  if strContains up "RUNNING" || strContains up "PLAYING" then .RUNNING
  else if strContains up "PAUSE" then .PAUSED
  else if strContains up "STOP" then .STOPPED
  else .UNKNOWN

/-- The fallback normalisation of `winAuto._wait_robot_stopped`:
`str(raw or "").strip().upper()`, returned as-is (a plain string, not one of
the four canonical values). -/
def canonAuto (raw : String) : String :=
  pyStripUpper raw

/-- A raw status string contains none of the keywords the JSON-driver
classifier looks for. -/
def noStateKeyword (raw : String) : Bool :=
  let up := pyStripUpper raw
  !(strContains up "RUNNING" || strContains up "PLAYING" ||
    strContains up "PAUSE" || strContains up "STOP")

/-! ## Completion polling

`winAuto._wait_robot_stopped` is driven by repeated timer callbacks; we model
one run of it as a fold over the finite list of observations the poll makes,
each observation being the pair (elapsed seconds since `start_ts` when the
poll fires, raw `programState` reply).  The result is the index of the
observation at which the step was declared finished, or `none` if the given
observations never satisfy the exit condition. -/

/-- One run of the `_poll` closure inside `winAuto._wait_robot_stopped`:
`seenActive` is the `seen_active` flag, `i` the index of the next
observation.  Mirrors lines 438-502 of `winAuto.py` (with the attribute
error on `_canon_prog_state` sending every call into the `except` branch,
so `canon` is `canonAuto raw`). -/
def autoWaitAux : List (ℚ × String) → Bool → Nat → Option Nat
  | [], _, _ => none
  | (t, raw) :: rest, seenActive, i =>
    let canon := canonAuto raw
    let seen := seenActive || canon = "RUNNING" || canon = "PAUSED"
    if canon = "STOPPED" then
      if !seen && t < 2 then autoWaitAux rest seen (i + 1)
      else some i
    else autoWaitAux rest seen (i + 1)

/-- The fixed full-loop driver's wait loop, started with `seen_active =
False`. -/
def autoWaitCompletes (obs : List (ℚ × String)) : Option Nat :=
  autoWaitAux obs false 0

/-- Poll period of the JSON driver (`AUTO_POLL_MS` in `winJsonAuto.py`),
in milliseconds. -/
def AUTO_POLL_MS : ℚ := 800

/-- Elapsed milliseconds after `play` at which the JSON driver's `i`-th
program-state poll fires: the first poll is scheduled `AUTO_POLL_MS` after
`play` and each repoll `AUTO_POLL_MS` after the previous one. -/
def jsonElapsedMs (i : Nat) : ℚ :=
  AUTO_POLL_MS * (i + 1)

/-- One run of `winJsonAuto._poll_program_state` over the successive raw
program states it observes; result is the index of the observation at which
the phase was reported finished.  Mirrors lines 531-587 of `winJsonAuto.py`:
RUNNING/PAUSED/UNKNOWN repoll, STOPPED completes at once, anything else
repolls. -/
def jsonPollAux : List String → Nat → Option Nat
  | [], _ => none
  | raw :: rest, i =>
    let canon := canonJson raw
    if canon = .RUNNING ∨ canon = .PAUSED ∨ canon = .UNKNOWN then
      jsonPollAux rest (i + 1)
    else if canon = .STOPPED then some i
    else jsonPollAux rest (i + 1)

/-- The JSON plan driver's completion poll. -/
def jsonPollCompletes (obs : List String) : Option Nat :=
  jsonPollAux obs 0

/-! ## Pan sensing (`deviceScale.py` section 3.5)

`_sample_gross` collects the gross readings that succeed; `is_pan_empty` and
`is_pan_present` compute mean / sample standard deviation over them.  We
embed the statistics over `ℚ`; the standard deviation (`var ** 0.5` in the
source) is passed as an explicit parameter `std`, constrained where needed
by `0 ≤ std ∧ std ^ 2 = sampleVar vals`. -/

/-- The stats bundle returned next to the boolean by `is_pan_empty` /
`is_pan_present` (grams). -/
structure PanStats where
  meanGrossG : ℚ
  stdGrossG : ℚ
  thresholdG : ℚ
  n : Nat
deriving DecidableEq, Repr

/-- `sum(vals)/len(vals)` (only used with at least one sample). -/
def sampleMean (vals : List ℚ) : ℚ :=
  vals.sum / vals.length

/-- `sum((v-mean)**2 for v in vals)/max(1, len(vals)-1)`. -/
def sampleVar (vals : List ℚ) : ℚ :=
  ((vals.map (fun v => (v - sampleMean vals) ^ 2)).sum) / max 1 (vals.length - 1)

/-- The noise-adaptive threshold of `is_pan_empty`:
`thr = max(threshold_mg/1000.0, 5.0*std)` (grams). -/
def emptyThr (thresholdMg std : ℚ) : ℚ :=
  max (thresholdMg / 1000) (5 * std)

/-- `deviceScale.is_pan_empty`, as a function of the acquired samples
(gross grams) and of their standard deviation `std`.  Zero samples return
`(False, zero stats)`; otherwise empty iff `abs(mean) < thr`. -/
def isPanEmpty (thresholdMg : ℚ) (vals : List ℚ) (std : ℚ) : Bool × PanStats :=
  match vals with
  | [] => (false, ⟨0, 0, thresholdMg / 1000, 0⟩)
  | _ =>
    let mean := sampleMean vals
    let thr := emptyThr thresholdMg std
    (decide (|mean| < thr), ⟨mean, std, thr, vals.length⟩)

/-- `deviceScale.is_pan_present`: zero samples return `(False, zero stats)`;
otherwise present iff `mean >= min_present_mg/1000`. -/
def isPanPresent (minPresentMg : ℚ) (vals : List ℚ) (std : ℚ) : Bool × PanStats :=
  match vals with
  | [] => (false, ⟨0, 0, minPresentMg / 1000, 0⟩)
  | _ =>
    let mean := sampleMean vals
    let thr := minPresentMg / 1000
    (decide (thr ≤ mean), ⟨mean, std, thr, vals.length⟩)

/-- `SCALE_CONFIG["vial_presence_min_mg"]` from `config.py`. -/
def vialPresenceMinMg : ℚ := 14000

/-- `winRobotArm._is_pan_empty`: calls `is_pan_present` with the configured
presence threshold and returns `True` ("pan empty", P1 may proceed) exactly
when the presence flag is `False`; returns `False` when the scale is absent
or the call raises.  `scaleOk` models the scale handle being present and the
sampling call succeeding, `vals`/`std` the acquired samples. -/
def winP1IsPanEmpty (scaleOk : Bool) (vals : List ℚ) (std : ℚ) : Bool :=
  if scaleOk then
    let present := (isPanPresent vialPresenceMinMg vals std).1
    if present then false else true
  else false

/-! ## Weight reading (`deviceScale.py` section 3.4)

`get_weights` issues a `GetWeight` call, digs a `WeightSample` node out of
the reply (directly or under `WeighingInformation/WeightSamples`), retries in
`Immediate` mode if none is found, and finally either raises on an explicit
non-`Success` outcome or returns `None/None`.  `get_weight` then prefers net,
falls back to gross, and otherwise returns `0.0`.  Numeric values are carried
as `Option ℚ` (`None` standing for a missing or unparseable `Value`, as
`_to_float` returns `None` on anything it cannot parse). -/

/-- A `ValueWithUnit`-bearing node as read by `_read_vu`: either the pair is
nested under `ValueWithUnit`, or `Value`/`Unit` sit directly on the node. -/
structure VUNode where
  valueWithUnit : Option (Option ℚ × Option String)
  value : Option ℚ
  unit : Option String
deriving Repr

/-- `_read_vu` on a present node. -/
def readVU (node : VUNode) : Option ℚ × Option String :=
  match node.valueWithUnit with
  | some p => p
  | none => (node.value, node.unit)

/-- `_to_g`: convert a value and unit to grams, `none` when either part is
missing or the unit is unrecognized. -/
def toG (val : Option ℚ) (unit : Option String) : Option ℚ :=
  match val, unit with
  | some v, some u =>
    let s := String.mk ((stripChars u.data).map Char.toLower)
    if s = "g" ∨ s = "gram" ∨ s = "gramme" ∨ s = "grams" then some v
    else if s = "mg" ∨ s = "milligram" ∨ s = "milligramme" then some (v / 1000)
    else if s = "kg" ∨ s = "kilogram" ∨ s = "kilogramme" then some (v * 1000)
    else none
  | _, _ => none

/-- A weight sample node (`NetWeight` / `GrossWeight` children). -/
structure WSample where
  netWeight : Option VUNode
  grossWeight : Option VUNode
deriving Repr

/-- The `WeightSample` payload may be a single node or a list (the code takes
the last element of a list). -/
inductive WSVal where
  | one (s : WSample)
  | many (xs : List WSample)
deriving Repr

/-- A serialized `GetWeight` reply, with the two dig paths of `_extract_ws`
and the fields consulted on failure. -/
structure WResp where
  weightSample : Option WSVal
  nestedWeightSample : Option WSVal
  outcome : Option String
  commandId : Option Int
deriving Repr

/-- `_extract_ws`: the direct `WeightSample` field, else the nested
`WeighingInformation/WeightSamples/WeightSample` path. -/
def extractWS (r : WResp) : Option WSVal :=
  match r.weightSample with
  | some ws => some ws
  | none => r.nestedWeightSample

/-- Read `(net_g, gross_g)` out of one `WeightSample` node (`_dig` on
`NetWeight`/`GrossWeight`, then `_read_vu` and `_to_g`). -/
def readOneSample (s : WSample) : Option ℚ × Option ℚ :=
  let (nv, nu) := match s.netWeight with
    | some node => readVU node
    | none => (none, none)
  let (gv, gu) := match s.grossWeight with
    | some node => readVU node
    | none => (none, none)
  (toG nv nu, toG gv gu)

/-- Read `(net_g, gross_g)` out of an extracted `WeightSample`; a list is
collapsed to its last element (`ws[-1]`, an `IndexError` on an empty list). -/
def readSample : WSVal → Except String (Option ℚ × Option ℚ)
  | .one s => .ok (readOneSample s)
  | .many xs =>
    match xs.getLast? with
    | some s => .ok (readOneSample s)
    | none => .error "IndexError"

/-- Python truthiness of an optional string (`None` and `""` are falsy). -/
def truthyStr : Option String → Bool
  | none => false
  | some s => !(s = "")

/-- `get_weights`, as a function of the reply to the first (`Stable`) call
and the reply to the `Immediate` fallback call. -/
def getWeights (stable immediate : WResp) : Except String (Option ℚ × Option ℚ) :=
  match extractWS stable with
  | some ws => readSample ws
  | none =>
    match extractWS immediate with
    | some ws => readSample ws
    | none =>
      if truthyStr immediate.outcome ∧ immediate.outcome ≠ some "Success" then
        .error "GetWeight: bad Outcome"
      else .ok (none, none)

/-- `get_weight`: prefer net, else gross, else `0.0`. -/
def getWeight (stable immediate : WResp) : Except String ℚ :=
  match getWeights stable immediate with
  | .error e => .error e
  | .ok (net, gross) =>
    match net with
    | some v => .ok v
    | none =>
      match gross with
      | some v => .ok v
      | none => .ok 0

/-! ## Dosing job submission (`winScale.py` `on_start_dosing_job`)

The submission reply dictionary built by `deviceScale.start_dosing_job`.
`on_start_dosing_job` starts the notification-consumer worker exactly when
`out == "Success" and not s_err`, where `s_err` is the
`StartDosingJobListError` field; the `JobErrors` field is logged but not
consulted. -/

/-- The dictionary returned by `start_dosing_job` (all fields optional, as
`resp.get(...)` yields `None` for missing keys).  `jobErrors` is kept
abstract as an optional list of error strings. -/
structure DosingSubmission where
  outcome : Option String
  commandId : Option Int
  errorMessage : Option String
  startDosingJobListError : Option String
  jobErrors : Option (List String)
deriving Repr

/-- The decision at the end of `on_start_dosing_job` (lines 442-443 of
`winScale.py`): the worker-start routine is invoked iff the outcome equals
`"Success"` and `StartDosingJobListError` is falsy. -/
def workerStartDecision (r : DosingSubmission) : Bool :=
  decide (r.outcome = some "Success") && !truthyStr r.startDosingJobListError

/-! ## Dosing cancel escalation (`winScale.py` `on_cancel_dosing_job`)

The handler calls `cancel_dosing_job_list`, then — only when the previous
reply's `Outcome` is neither `None` nor `"Success"` — `cancel_current_task`,
then under the same condition `cancel_command`; any exception in this chain
is caught.  Afterwards, unconditionally, the local stop event is set when
one exists, and the worker is joined briefly. -/

/-- The three device-side cancel operations, in escalation order. -/
inductive CancelOp where
  | jobList
  | task
  | command
deriving DecidableEq, Repr

/-- A device-side cancel acknowledged per the code's test: escalation happens
only when `Outcome not in (None, "Success")`. -/
def cancelAck (outcome : Option String) : Bool :=
  outcome = none || outcome = some "Success"

/-- Outcome of one cancel call: the call raised, or returned a reply whose
`Outcome` field is given. -/
inductive CallResult where
  | raised
  | replied (outcome : Option String)
deriving Repr

/-- The device-side calls `on_cancel_dosing_job` performs, given the result
of each cancel operation (a raised exception aborts the chain, caught by the
surrounding `try`). -/
def cancelCalls (r1 r2 r3 : CallResult) : List CancelOp :=
  match r1 with
  | .raised => [.jobList]
  | .replied o1 =>
    if cancelAck o1 then [.jobList]
    else
      match r2 with
      | .raised => [.jobList, .task]
      | .replied o2 =>
        if cancelAck o2 then [.jobList, .task]
        else
          match r3 with
          | .raised => [.jobList, .task, .command]
          | .replied _ => [.jobList, .task, .command]

/-- After the `try` block, `on_cancel_dosing_job` sets the local stop event
whenever `self._dosing_stop` is not `None` — on every path, raised cancels
included. -/
def cancelSetsStop (hasStopEvent : Bool) (_r1 _r2 _r3 : CallResult) : Bool :=
  hasStopEvent

/-- One iteration head of `auto_confirm_dosing_notifications`
(`deviceScale.py` lines 652-655): the loop returns as soon as it observes
the stop event set. -/
def consumerExitsOnStop (stopSet : Bool) : Bool :=
  if stopSet then true else false

/-! ## Python exceptions relevant to the embedded paths -/

/-- The exception kinds the embedded code paths can raise. -/
inductive PyErr where
  | runtimeError (msg : String)
  | valueError (msg : String)
  | attributeError (attr : String)
  | typeError (msg : String)
deriving DecidableEq, Repr

/-! ## Configuration tables (`config.py`) -/

/-- `UR3_CONFIG["vial_id_to_number"]`. -/
def vialIdToNumberTable : List (String × ℤ) :=
  [("E1-1", 4), ("E1-2", 3), ("E1-3", 2), ("E1-4", 1),
   ("E2-1", 7), ("E2-2", 6), ("E2-3", 5),
   ("E3-1", 11), ("E3-2", 10), ("E3-3", 9), ("E3-4", 8)]

/-- `winRobotArm._vial_id_to_number`: table lookup, `ValueError` on a missing
key (here `none`). -/
def vialIdToNumber (vialId : String) : Option ℤ :=
  vialIdToNumberTable.lookup vialId

/-- `STORAGE_CONFIG["id_to_number"]`. -/
def storageIdToNumberTable : List (String × ℤ) :=
  [("S1", 1), ("S2", 2), ("S3", 3), ("S4", 4)]

/-- `STORAGE_CONFIG["labels"]`. -/
def storageLabels : List (String × String) :=
  [("S1", "NaHCO3"), ("S2", "CouCou Edy"), ("S3", "CouCou Louis"),
   ("S4", "Autre chose")]

/-- The vial ids offered by the `WinVials` panel, group E
(columns E1/E2/E3 with 4, 3, 4 positions). -/
def eRackIds : List String :=
  ["E1-1", "E1-2", "E1-3", "E1-4",
   "E2-1", "E2-2", "E2-3",
   "E3-1", "E3-2", "E3-3", "E3-4"]

/-- The vial ids offered by the `WinVials` panel, group F. -/
def fRackIds : List String :=
  ["F1-1", "F1-2", "F1-3", "F1-4",
   "F2-1", "F2-2", "F2-3",
   "F3-1", "F3-2", "F3-3", "F3-4"]

/-! ## Label normalisation and storage lookup (`winRobotArm.py`) -/

/-- Split a character list on whitespace runs (Python `str.split()`). -/
def wordsAux : List Char → List Char → List (List Char)
  | [], acc => if acc.isEmpty then [] else [acc.reverse]
  | c :: rest, acc =>
    if isSpaceChar c then
      if acc.isEmpty then wordsAux rest [] else acc.reverse :: wordsAux rest []
    else wordsAux rest (c :: acc)

/-- `winRobotArm._norm_label`:
`" ".join(str(s or "").strip().lower().split())`. -/
def normLabel (s : String) : String :=
  String.intercalate " " ((wordsAux (s.data.map Char.toLower) []).map String.mk)

/-- Digits of a non-empty all-digit character list, as a natural number. -/
def natOfDigits (cs : List Char) : Option ℕ :=
  match cs with
  | [] => none
  | _ =>
    cs.foldl
      (fun acc c =>
        match acc with
        | none => none
        | some n => if c.isDigit then some (n * 10 + (c.toNat - 48)) else none)
      (some 0)

/-- `winRobotArm._storage_id_to_number`: configured map first, then the
`"S<n>"` fallback (`int(storage_id[1:])`, `ValueError` on bad digits),
else `ValueError`. -/
def storageIdToNumber (sid : String) : Except PyErr ℤ :=
  match storageIdToNumberTable.lookup sid with
  | some n => .ok n
  | none =>
    match sid.data with
    | c :: rest =>
      if c.toUpper = 'S' then
        match natOfDigits rest with
        | some n => .ok (n : ℤ)
        | none => .error (.valueError "invalid literal for int")
      else .error (.valueError "storage_id invalide")
    | [] => .error (.valueError "storage_id invalide")

/-- `winRobotArm._find_storage_by_substance_label`: first configured label
whose normalisation matches; the slot number comes from the configured map
with the `"S<n>"` fallback, a failing conversion skipping the entry. -/
def findStorageByLabel (substanceName : String) : Option (String × ℤ) :=
  let target := normLabel substanceName
  if target = "" then none
  else
    storageLabels.findSome? (fun p =>
      if normLabel p.2 = target then
        match storageIdToNumberTable.lookup p.1 with
        | some n => some (p.1, n)
        | none =>
          match p.1.data with
          | c :: rest =>
            if c.toUpper = 'S' then (natOfDigits rest).map (fun n => (p.1, (n : ℤ)))
            else none
          | [] => none
      else none)

/-! ## The `UR3` facade (`deviceRobotArm.py`)

The facade class defines a fixed set of methods; Python resolves every
`arm.<name>` at run time and raises `AttributeError` when the class has no
such attribute.  The P1..P4 helpers of `winRobotArm.py` call
`arm.set_vials_nb(...)` / `arm.set_disp_nb(...)`, names the facade does not
define (its register access is `set_input_int_register_rtde`). -/

/-- Every method defined on the `UR3` facade class
(`deviceRobotArm.py` lines 287-320). -/
def ur3FacadeMethods : List String :=
  ["connect", "close", "is_connected", "ping",
   "get_robot_mode", "get_safety_mode", "power_on", "power_off",
   "brake_release", "play", "stop",
   "get_loaded_program", "get_program_state", "load_program",
   "send_script", "list_programs", "set_input_int_register_rtde"]

/-- Effects observable on the devices along the embedded paths. -/
inductive Action where
  | armStop
  | armPlay
  | armSetRegister (val : ℤ)
  | armOther (method : String)
  | scaleOpenDoor
deriving DecidableEq, Repr

/-- Dynamic dispatch on the `UR3` facade: a call on a name the class does
not define raises `AttributeError`; a defined method produces its effect. -/
def armInvoke (method : String) (arg : Option ℤ) : Except PyErr Action :=
  if ur3FacadeMethods.contains method then
    match method, arg with
    | "stop", _ => .ok .armStop
    | "play", _ => .ok .armPlay
    | "set_input_int_register_rtde", some v => .ok (.armSetRegister v)
    | m, _ => .ok (.armOther m)
  else .error (.attributeError method)

/-! ## The P1..P4 helpers (`winRobotArm.py` lines 464-526)

Each helper is a function of the relevant UI selection and of the physical
facts its precondition probes report; it returns the device actions it
performed, or the exception it raised. -/

/-- `winRobotArm._play_p1`: requires a selected vial with a configured
number; opens the balance door when closed; requires the pan empty; then
`arm.stop()` and `arm.set_vials_nb(vnum)` (the latter raising
`AttributeError`, as the facade has no such method). -/
def playP1 (sel : Option String) (doorOpen panEmpty : Bool) :
    Except PyErr (List Action) :=
  match sel with
  | none => .error (.runtimeError "Vial requise pour P1")
  | some vialId =>
    match vialIdToNumber vialId with
    | none => .error (.valueError "vial_id inconnu ou non mappé")
    | some vnum =>
      let doorActs : List Action := if doorOpen then [] else [.scaleOpenDoor]
      if !panEmpty then .error (.runtimeError "Pan non vide")
      else
        match armInvoke "stop" none with
        | .error e => .error e
        | .ok a1 =>
          match armInvoke "set_vials_nb" (some vnum) with
          | .error e => .error e
          | .ok a2 => .ok (doorActs ++ [a1, a2])

/-- `winRobotArm._play_p2`: requires a selected storage slot; requires no
dispenser on the balance; then `arm.stop()` and `arm.set_disp_nb(dnum)`
(again a missing facade attribute). -/
def playP2 (storageSel : Option String) (dispenserPresent : Bool) :
    Except PyErr (List Action) :=
  match storageSel with
  | none => .error (.runtimeError "Storage requis")
  | some sid =>
    match storageIdToNumber sid with
    | .error e => .error e
    | .ok dnum =>
      if dispenserPresent then .error (.runtimeError "Dispenser déjà présent")
      else
        match armInvoke "stop" none with
        | .error e => .error e
        | .ok a1 =>
          match armInvoke "set_disp_nb" (some dnum) with
          | .error e => .error e
          | .ok a2 => .ok [a1, a2]

/-- `winRobotArm._play_p3`: like P1 but requires the pan NOT empty. -/
def playP3 (sel : Option String) (doorOpen panEmpty : Bool) :
    Except PyErr (List Action) :=
  match sel with
  | none => .error (.runtimeError "Vial requise pour P3")
  | some vialId =>
    match vialIdToNumber vialId with
    | none => .error (.valueError "vial_id inconnu ou non mappé")
    | some vnum =>
      let doorActs : List Action := if doorOpen then [] else [.scaleOpenDoor]
      if panEmpty then .error (.runtimeError "Pan vide → inutile")
      else
        match armInvoke "stop" none with
        | .error e => .error e
        | .ok a1 =>
          match armInvoke "set_vials_nb" (some vnum) with
          | .error e => .error e
          | .ok a2 => .ok (doorActs ++ [a1, a2])

/-- `winRobotArm._play_p4`: requires a non-empty dosing-head name matching a
configured storage label; then `arm.stop()` and `arm.set_disp_nb(dnum)`. -/
def playP4 (headName : String) : Except PyErr (List Action) :=
  let name := String.mk (stripChars headName.data)
  if name = "" then .error (.runtimeError "Pas de dispenser")
  else
    match findStorageByLabel name with
    | none => .error (.runtimeError "Label inconnu")
    | some (_, dnum) =>
      match armInvoke "stop" none with
      | .error e => .error e
      | .ok a1 =>
        match armInvoke "set_disp_nb" (some dnum) with
        | .error e => .error e
        | .ok a2 => .ok [a1, a2]

/-- `winRobotArm.on_play` in the P1 case: the helper runs first; only when
it returns does the handler reach `arm.play()`.  An exception from the
helper therefore always precedes (and prevents) the `play` command. -/
def onPlayP1 (sel : Option String) (doorOpen panEmpty : Bool) :
    Except PyErr (List Action) :=
  match playP1 sel doorOpen panEmpty with
  | .error e => .error e
  | .ok acts =>
    match armInvoke "play" none with
    | .error e => .error e
    | .ok a => .ok (acts ++ [a])

/-! ## JSON plan loading (`winJsonAuto.py` `on_load_json` / `_parse_plan`)

The parser works on the value `json.load` produced, i.e. an arbitrary
Python object tree of `None`/bool/number/string/list/dict.  Numeric leaves
are carried as `ℚ`; `float(...)` applied to a string is modelled for plain
decimal literals (sign, digits, optional fraction), anything else parsing to
`none` — which the source catches and turns into a skipped powder. -/

/-- A Python value as produced by `json.load` (plus `None` for missing
keys). -/
inductive PyVal where
  | pnone
  | pbool (b : Bool)
  | pnum (q : ℚ)
  | pstr (s : String)
  | plist (xs : List PyVal)
  | pdict (kvs : List (String × PyVal))
deriving Repr

/-- Python truthiness. -/
def pyTruthy : PyVal → Bool
  | .pnone => false
  | .pbool b => b
  | .pnum q => !(q = 0)
  | .pstr s => !(s = "")
  | .plist xs => !xs.isEmpty
  | .pdict kvs => !kvs.isEmpty

/-- `d.get(k)` on a dict (the source only calls it on values known to be
dicts); `None` when the key is absent. -/
def dictGet (v : PyVal) (k : String) : PyVal :=
  match v with
  | .pdict kvs =>
    match kvs.lookup k with
    | some x => x
    | none => .pnone
  | _ => .pnone

/-- `d.get(k, default)`. -/
def dictGetD (v : PyVal) (k : String) (dflt : PyVal) : PyVal :=
  match v with
  | .pdict kvs =>
    match kvs.lookup k with
    | some x => x
    | none => dflt
  | _ => dflt

/-- Python `a or b`. -/
def pyOr (a b : PyVal) : PyVal :=
  if pyTruthy a then a else b

/-- `v.strip()`: defined on strings, `AttributeError` on anything else. -/
def pyStripVal : PyVal → Except PyErr String
  | .pstr s => .ok (String.mk (stripChars s.data))
  | _ => .error (.attributeError "strip")

/-- Digits folded to a natural number, `0` on the empty list (used for the
parts around a decimal point after they were checked to be digits). -/
def digitsNat (cs : List Char) : ℕ :=
  cs.foldl (fun n c => n * 10 + (c.toNat - 48)) 0

/-- `float(s)` on a plain decimal literal (optional sign, digits, optional
single decimal point); `none` for anything it does not cover. -/
def parseDecimal (s : String) : Option ℚ :=
  let core : List Char → Option ℚ := fun cs =>
    let ip := cs.takeWhile (fun c => c ≠ '.')
    let rest := cs.dropWhile (fun c => c ≠ '.')
    match rest with
    | [] =>
      if ip.isEmpty ∨ ip.any (fun c => !c.isDigit) then none
      else some ((digitsNat ip : ℚ))
    | _ :: fp =>
      if ip.any (fun c => !c.isDigit) ∨ fp.any (fun c => !c.isDigit) then none
      else if ip.isEmpty ∧ fp.isEmpty then none
      else some ((digitsNat ip : ℚ) + (digitsNat fp : ℚ) / 10 ^ fp.length)
  match stripChars s.data with
  | '-' :: cs => (core cs).map Neg.neg
  | '+' :: cs => core cs
  | cs => core cs

/-- Python `float(v)`: numbers and bools convert, plain decimal strings
parse, everything else raises — which the powder loop catches, so `none`
covers both the unparseable and the raising cases. -/
def pyFloat : PyVal → Option ℚ
  | .pnum q => some q
  | .pbool b => some (if b then 1 else 0)
  | .pstr s => parseDecimal s
  | _ => none

/-- Python `for x in v`: lists iterate their items, strings their
characters, dicts their keys; numbers and booleans raise `TypeError`
(`None` cannot reach the loop, `or []` having replaced every falsy
value). -/
def pyIterate : PyVal → Except PyErr (List PyVal)
  | .plist xs => .ok xs
  | .pstr s => .ok (s.data.map (fun c => .pstr (String.mk [c])))
  | .pdict kvs => .ok (kvs.map (fun kv => .pstr kv.1))
  | _ => .error (.typeError "object is not iterable")

/-- One powder entry of a normalised plan. -/
structure PowderEntry where
  name : String
  qtyMg : ℚ
deriving DecidableEq, Repr

/-- One vial entry of a normalised plan. -/
structure VialEntry where
  vialId : String
  powders : List PowderEntry
deriving DecidableEq, Repr

/-- The body of the powder loop in `_parse_plan`: `none` means the entry is
skipped (`continue`), an error aborts the whole parse (the `.strip()` on a
truthy non-string name). -/
def parsePowder (p : PyVal) : Except PyErr (Option PowderEntry) :=
  match p with
  | .pdict _ => do
    let name ← pyStripVal (pyOr (dictGet p "name") (.pstr ""))
    match pyFloat (dictGetD p "qty_mg" (.pnum 0)) with
    | none => pure none
    | some qty =>
      if name = "" ∨ qty ≤ 0 then pure none
      else pure (some ⟨name, qty⟩)
  | _ => pure none

/-- The powder loop of `_parse_plan`, collecting the kept entries in
order. -/
def parsePowderList : List PyVal → Except PyErr (List PowderEntry)
  | [] => .ok []
  | p :: rest => do
    let r ← parsePowder p
    let tail ← parsePowderList rest
    match r with
    | some e => pure (e :: tail)
    | none => pure tail

/-- The body of the vial loop in `_parse_plan`: `none` means the entry is
dropped, an error aborts the whole parse. -/
def parseVialEntry (v : PyVal) : Except PyErr (Option VialEntry) :=
  match v with
  | .pdict _ => do
    let vialId ← pyStripVal
      (pyOr (dictGet v "vial_id")
        (pyOr (dictGet v "name") (pyOr (dictGet v "vial") (.pstr ""))))
    if vialId = "" then pure none
    else do
      let elems ← pyIterate (pyOr (dictGet v "powders") (.plist []))
      let powders ← parsePowderList elems
      if powders.isEmpty then pure none
      else pure (some ⟨vialId, powders⟩)
  | _ => pure none

/-- The vial loop of `_parse_plan`. -/
def parseVialList : List PyVal → Except PyErr (List VialEntry)
  | [] => .ok []
  | v :: rest => do
    let r ← parseVialEntry v
    let tail ← parseVialList rest
    match r with
    | some e => pure (e :: tail)
    | none => pure tail

/-- `winJsonAuto._parse_plan`. -/
def parsePlan (data : PyVal) : Except PyErr (List VialEntry) :=
  let vialsSrc := match data with
    | .pdict _ => dictGet data "vials"
    | _ => .pnone
  match vialsSrc with
  | .plist vs => parseVialList vs
  | _ => .ok []

/-- The outcome of `on_load_json` once a document has been read: an
uncaught exception from `_parse_plan`, a "plan vide" rejection, or an
accepted plan. -/
inductive LoadResult where
  | raisedErr (e : PyErr)
  | rejectedEmpty
  | accepted (plan : List VialEntry)
deriving Repr

/-- The acceptance decision of `on_load_json` (lines 131-136 of
`winJsonAuto.py`). -/
def onLoadJson (data : PyVal) : LoadResult :=
  match parsePlan data with
  | .error e => .raisedErr e
  | .ok [] => .rejectedEmpty
  | .ok plan => .accepted plan

/-- A vial entry valid per the claimed rule: non-empty id and at least one
powder with a non-empty name and strictly positive quantity. -/
def validVialEntry (e : VialEntry) : Prop :=
  e.vialId ≠ "" ∧ e.powders ≠ [] ∧
    ∀ p ∈ e.powders, p.name ≠ "" ∧ 0 < p.qtyMg

/-! ## The JSON plan driver (`winJsonAuto.py` step machine)

The driver walks the plan with two cursors and chains
`_start_vial_p1 → _start_powder_cycle → _after_p2_for_powder →
_after_dosing_for_powder → _after_p3_for_powder → _start_vial_p4 →
_after_p4`, each transition fired by the completion callback of the
previous phase.  We embed it as a fuel-indexed interpreter that emits the
phase-start events; a transition to the next control point stands for "the
phase reported Completed". -/

/-- Vial selection state of the `WinVials` panel plus the storage panel. -/
structure UISel where
  eSel : Option String
  fSel : Option String
  storageSel : Option String
deriving Repr

/-- `WinVials.set_selected_vial_c`: selects in group E when the id is an E
rack id, silently does nothing otherwise. -/
def setSelectedVialC (sel : UISel) (vid : String) : UISel :=
  if eRackIds.contains vid then { sel with eSel := some vid } else sel

/-- `WinVials.set_selected_vial_f`. -/
def setSelectedVialF (sel : UISel) (vid : String) : UISel :=
  if fRackIds.contains vid then { sel with fSel := some vid } else sel

/-- `winRobotArm._get_selected_vial_any`: the E selection wins. -/
def getSelectedAny (sel : UISel) : Option String :=
  match sel.eSel with
  | some v => some v
  | none => sel.fSel

/-- `win.winMode._json_select_vial`: try group E, check, try group F,
check, raise when the id is selected in neither. -/
def jsonSelectVial (sel : UISel) (vid : String) : Except PyErr UISel :=
  let sel1 := setSelectedVialC sel vid
  if getSelectedAny sel1 = some vid then .ok sel1
  else
    let sel2 := setSelectedVialF sel1 vid
    if getSelectedAny sel2 = some vid then .ok sel2
    else .error (.runtimeError "vial inconnue dans l'UI")

/-- `win.winMode._json_select_powder`: resolve the powder name against
`STORAGE_CONFIG["labels"]` and select that storage slot. -/
def jsonSelectPowder (sel : UISel) (powderName : String) : Except PyErr UISel :=
  match findStorageByLabel powderName with
  | none => .error (.runtimeError "poudre inconnue")
  | some (sid, _) => .ok { sel with storageSel := some sid }

/-- `_start_program_with_helper` target lookup: a listed program whose
lowercased path ends with `/<short>` or `\<short>`, or equals `<short>`. -/
def findProgramTarget (values : List String) (shortName : String) :
    Option String :=
  let shortLow := shortName.data.map Char.toLower
  values.find? (fun p =>
    let pl := p.data.map Char.toLower
    ('/' :: shortLow).isSuffixOf pl || ('\\' :: shortLow).isSuffixOf pl ||
      pl = shortLow)

/-- The environment a plan run executes in: the robot's program listing and
the physical facts each precondition probe reports. -/
structure DriverEnv where
  programsOnRobot : List String
  doorOpen : Bool
  panEmptyAtP1 : Bool
  panEmptyAtP3 : Bool
  dispenserPresentAtP2 : Bool
  headNameAtP4 : String
deriving Repr

/-- Phase-start events emitted by a plan run (a phase is started only when
its `.urp` program was found, its helper ran without an exception, and
`play` was issued). -/
inductive PhaseEv where
  | startP1 (vial : String)
  | startP2 (vial powder : String) (slot : String)
  | startDosing (vial powder : String) (qtyMg : ℚ)
  | startP3 (vial powder : String)
  | startP4 (vial : String)
deriving DecidableEq, Repr

/-- A finished plan run: completed, or interrupted with an abort reason. -/
inductive DriverResult where
  | finished (events : List PhaseEv)
  | aborted (events : List PhaseEv) (reason : String)
  | outOfFuel (events : List PhaseEv)
deriving DecidableEq, Repr

/-- The control points of the driver (the callback about to run). -/
inductive Ctrl where
  | startVialP1
  | powderCycle
  | afterP2
  | afterDosing
  | afterP3
  | startVialP4
  | afterP4
deriving DecidableEq, Repr

/-- Mutable driver state: the two cursors and the UI selections. -/
structure DriverSt where
  vialIdx : Nat
  powderIdx : Nat
  sel : UISel
  events : List PhaseEv
deriving Repr

/-- `_get_current_vial`. -/
def currentVial (plan : List VialEntry) (st : DriverSt) : Option VialEntry :=
  plan.get? st.vialIdx

/-- `_get_current_powder`. -/
def currentPowder (plan : List VialEntry) (st : DriverSt) : Option PowderEntry :=
  match currentVial plan st with
  | none => none
  | some v => v.powders.get? st.powderIdx

/-- The common part of `_start_program_with_helper`: find and load the
program, run the helper, `play`.  Returns the abort reason, when any. -/
def startProgramPhase (env : DriverEnv) (shortName : String)
    (helperRes : Except PyErr (List Action)) : Option String :=
  if env.programsOnRobot.isEmpty then some "aucun programme .urp disponible"
  else
    match findProgramTarget env.programsOnRobot shortName with
    | none => some "programme introuvable"
    | some _ =>
      match helperRes with
      | .error _ => some ("Erreur dans le helper " ++ shortName)
      | .ok _ => none

/-- One run of the driver, by fuel-indexed interpretation of the callback
chain of `winJsonAuto.py` (lines 307-443). -/
def driveAux (env : DriverEnv) (plan : List VialEntry) :
    Nat → Ctrl → DriverSt → DriverResult
  | 0, _, st => .outOfFuel st.events
  | fuel + 1, ctrl, st =>
    match ctrl with
    | .startVialP1 =>
      match currentVial plan st with
      | none => .finished st.events
      | some vial =>
        match jsonSelectVial st.sel vial.vialId with
        | .error _ => .aborted st.events "Impossible de sélectionner la vial"
        | .ok sel1 =>
          let helperRes :=
            playP1 (getSelectedAny sel1) env.doorOpen env.panEmptyAtP1
          match startProgramPhase env "P1Bastien.urp" helperRes with
          | some r => .aborted st.events r
          | none =>
            driveAux env plan fuel .powderCycle
              { st with sel := sel1, powderIdx := 0,
                        events := st.events ++ [.startP1 vial.vialId] }
    | .powderCycle =>
      match currentVial plan st, currentPowder plan st with
      | some vial, some powder =>
        match jsonSelectPowder st.sel powder.name with
        | .error _ =>
          .aborted st.events "Impossible de sélectionner le dispenser"
        | .ok sel1 =>
          let helperRes := playP2 sel1.storageSel env.dispenserPresentAtP2
          match startProgramPhase env "P2Bastien.urp" helperRes with
          | some r => .aborted st.events r
          | none =>
            let slot := match sel1.storageSel with
              | some s => s
              | none => ""
            driveAux env plan fuel .afterP2
              { st with sel := sel1,
                        events := st.events ++
                          [.startP2 vial.vialId powder.name slot] }
      | _, _ => driveAux env plan fuel .startVialP4 st
    | .afterP2 =>
      match currentVial plan st, currentPowder plan st with
      | some vial, some powder =>
        driveAux env plan fuel .afterDosing
          { st with events := st.events ++
              [.startDosing vial.vialId powder.name powder.qtyMg] }
      | _, _ => driveAux env plan fuel .startVialP4 st
    | .afterDosing =>
      match currentVial plan st, currentPowder plan st with
      | some vial, some powder =>
        let helperRes :=
          playP3 (getSelectedAny st.sel) env.doorOpen env.panEmptyAtP3
        match startProgramPhase env "P3Bastien.urp" helperRes with
        | some r => .aborted st.events r
        | none =>
          driveAux env plan fuel .afterP3
            { st with events := st.events ++
                [.startP3 vial.vialId powder.name] }
      | _, _ => driveAux env plan fuel .startVialP4 st
    | .afterP3 =>
      match currentVial plan st with
      | none => .finished st.events
      | some _ =>
        let st1 := { st with powderIdx := st.powderIdx + 1 }
        match currentPowder plan st1 with
        | some _ => driveAux env plan fuel .powderCycle st1
        | none => driveAux env plan fuel .startVialP4 st1
    | .startVialP4 =>
      match currentVial plan st with
      | none => .finished st.events
      | some vial =>
        let helperRes := playP4 env.headNameAtP4
        match startProgramPhase env "P4Bastien.urp" helperRes with
        | some r => .aborted st.events r
        | none =>
          driveAux env plan fuel .afterP4
            { st with events := st.events ++ [.startP4 vial.vialId] }
    | .afterP4 =>
      let st1 := { st with vialIdx := st.vialIdx + 1, powderIdx := 0 }
      match currentVial plan st1 with
      | some _ => driveAux env plan fuel .startVialP1 st1
      | none => .finished st1.events

/-- A full plan run (`on_start_plan` resets both cursors, then calls
`_start_vial_p1`). -/
def driveRun (env : DriverEnv) (plan : List VialEntry) (fuel : Nat) :
    DriverResult :=
  driveAux env plan fuel .startVialP1
    { vialIdx := 0, powderIdx := 0,
      sel := { eSel := none, fSel := none, storageSel := none }, events := [] }

/-! # Theorems -/

/-! ## Helper lemmas -/

/-- When the fixed-driver fallback normalisation produces exactly
`"STOPPED"`, the canonical classification of the same raw string is
`STOPPED`. -/
theorem canonJson_stopped_of_auto {raw : String}
    (h : canonAuto raw = "STOPPED") : canonJson raw = .STOPPED := by
  unfold canonAuto at h
  unfold canonJson
  rw [h]
  decide

/-- When the fixed-driver fallback normalisation produces exactly
`"RUNNING"`, the canonical classification is `RUNNING`. -/
theorem canonJson_running_of_auto {raw : String}
    (h : canonAuto raw = "RUNNING") : canonJson raw = .RUNNING := by
  unfold canonAuto at h
  unfold canonJson
  rw [h]
  decide

/-- When the fixed-driver fallback normalisation produces exactly
`"PAUSED"`, the canonical classification is `PAUSED`. -/
theorem canonJson_paused_of_auto {raw : String}
    (h : canonAuto raw = "PAUSED") : canonJson raw = .PAUSED := by
  unfold canonAuto at h
  unfold canonJson
  rw [h]
  decide

/-! ## Claim C1 -/

/-- Claim C1 (status: code_bug).  With vial "E1-3" selected (configured
physical number 2), the balance door closed and the pan empty, running the
P1 step passes the precondition checks but then raises
`AttributeError("set_vials_nb")`: the `UR3` facade defines no such method,
so the register write never happens and `play` is never issued.  The raised
error is an `AttributeError`, not one of the precondition
`RuntimeError`s/`ValueError`s, showing the failure is past the precondition
stage (and it escapes `on_play`'s handler, which only catches
`RuntimeError`, `UR3ConnectionError` and `ValueError`). -/
theorem c1_p1_register_write_missing :
    vialIdToNumber "E1-3" = some 2 ∧
    ur3FacadeMethods.contains "set_vials_nb" = false ∧
    onPlayP1 (some "E1-3") false true =
      .error (.attributeError "set_vials_nb") :=
  ⟨rfl, rfl, rfl⟩

/-! ## Claim C3 -/

/-- Claim C3 (status: code_bug).  Executing the JSON plan with the single
vial "V1" and powders [("NaHCO3", 5.0), ("Other", 3.0)] aborts before any
phase is started: "V1" is not a selectable rack id (the vial panel only
offers E*/F* ids), so `_json_select_vial` raises.  And with a mapped vial
id ("E1-3") in its place the run still aborts during P1, because
`_play_p1` raises `AttributeError` on the missing `set_vials_nb` facade
method.  In both runs the emitted phase list is empty — the claimed order
P1 → P2 → Dosing → P3 → P2 → Dosing → P3 → P4 never happens. -/
theorem c3_plan_run_aborts :
    driveRun
        ⟨["/programs/00Main/P1Bastien.urp", "/programs/00Main/P2Bastien.urp",
          "/programs/00Main/P3Bastien.urp", "/programs/00Main/P4Bastien.urp"],
         true, true, false, false, "NaHCO3"⟩
        [⟨"V1", [⟨"NaHCO3", 5⟩, ⟨"Other", 3⟩]⟩] 100 =
      .aborted [] "Impossible de sélectionner la vial" ∧
    driveRun
        ⟨["/programs/00Main/P1Bastien.urp", "/programs/00Main/P2Bastien.urp",
          "/programs/00Main/P3Bastien.urp", "/programs/00Main/P4Bastien.urp"],
         true, true, false, false, "NaHCO3"⟩
        [⟨"E1-3", [⟨"NaHCO3", 5⟩, ⟨"Other", 3⟩]⟩] 100 =
      .aborted [] "Erreur dans le helper P1Bastien.urp" :=
  ⟨rfl, rfl⟩

/-! ## Claim C4 -/

/-- Claim C4, counterexample.  The claim says the normalisation used by
the polling loops maps every raw string to one of RUNNING, PAUSED,
STOPPED, UNKNOWN, with unrecognized text going to UNKNOWN.  The fixed
full-loop driver's classification (`winAuto.py` line 459) maps the
unrecognized string "garbage" to "GARBAGE", which is none of the four
canonical values. -/
theorem c4_auto_canon_counterexample :
    canonAuto "garbage" = "GARBAGE" ∧
    canonAuto "garbage" ≠ rstateLabel .RUNNING ∧
    canonAuto "garbage" ≠ rstateLabel .PAUSED ∧
    canonAuto "garbage" ≠ rstateLabel .STOPPED ∧
    canonAuto "garbage" ≠ rstateLabel .UNKNOWN := by
  refine ⟨rfl, ?_, ?_, ?_, ?_⟩ <;> decide

/-- Claim C4 as amended (status: corrected).  The JSON plan driver's
normalisation is total and idempotent: every raw status string maps to
exactly one of RUNNING, PAUSED, STOPPED, UNKNOWN; text containing none of
the recognized keywords maps to UNKNOWN; and the classification is a total
function (it never raises).  The fixed full-loop driver's fallback instead
returns the uppercased trimmed raw text itself (see the counterexample). -/
theorem c4_canon_json_total_idempotent :
    ∀ raw : String,
      (canonJson raw = .RUNNING ∨ canonJson raw = .PAUSED ∨
        canonJson raw = .STOPPED ∨ canonJson raw = .UNKNOWN) ∧
      canonJson (rstateLabel (canonJson raw)) = canonJson raw ∧
      (noStateKeyword raw = true → canonJson raw = .UNKNOWN) := by
  intro raw
  refine ⟨?_, ?_, ?_⟩
  · cases h : canonJson raw
    · exact Or.inl rfl
    · exact Or.inr (Or.inl rfl)
    · exact Or.inr (Or.inr (Or.inl rfl))
    · exact Or.inr (Or.inr (Or.inr rfl))
  · cases h : canonJson raw <;> decide
  · intro h
    unfold noStateKeyword at h
    simp only [Bool.not_eq_true', Bool.or_eq_false_iff] at h
    simp [canonJson, h.1.1.1, h.1.1.2, h.1.2, h.2]

/-- Claim C4 witness: the amended theorem applied to the unrecognized raw
string "garbage" classifies it as UNKNOWN. -/
theorem c4_canon_json_witness :
    noStateKeyword "garbage" = true ∧ canonJson "garbage" = .UNKNOWN :=
  ⟨by decide, (c4_canon_json_total_idempotent "garbage").2.2 (by decide)⟩

/-! ## Claim C5 -/

/-- Claim C5, counterexample.  With zero acquired samples the claim asserts
that the presence check's outcome blocks the downstream P1 gate and that
the empty check reports an empty pan.  The code does the opposite: the
empty check's flag is `False` ("not empty"), and the P1 gate built on
`is_pan_present` returns `True` ("pan empty"), so P1 is not blocked. -/
theorem c5_no_samples_counterexample :
    (isPanEmpty 9 [] 0).1 = false ∧
    (isPanPresent 14000 [] 0).1 = false ∧
    winP1IsPanEmpty true [] 0 = true :=
  ⟨rfl, rfl, rfl⟩

/-- Claim C5 as amended (status: corrected).  Whenever the sampling loop
acquires zero samples: `is_pan_empty` returns the fail-safe "not empty"
flag with zero-mean stats (blocking steps that require an empty pan), and
`is_pan_present` returns "not present" with zero-mean stats — which the
robot-arm gate `_is_pan_empty` maps to "pan empty", so the P1 path is NOT
blocked; the gate blocks only when the scale is unreachable or the probe
raises. -/
theorem c5_no_samples_amended :
    ∀ thresholdMg minPresentMg stdA stdB : ℚ,
      isPanEmpty thresholdMg [] stdA =
        (false, ⟨0, 0, thresholdMg / 1000, 0⟩) ∧
      isPanPresent minPresentMg [] stdB =
        (false, ⟨0, 0, minPresentMg / 1000, 0⟩) ∧
      winP1IsPanEmpty true [] stdA = true ∧
      winP1IsPanEmpty false [] stdA = false :=
  fun _ _ _ _ => ⟨rfl, rfl, rfl, rfl⟩

/-! ## Claim C2 -/

/-- Soundness of the fixed full-loop driver's wait loop: a completion at
index `k` decomposes the observation list at a STOPPED-classified
observation, and is allowed only when an active state was seen earlier in
this run (or the initial `seen` flag was set) or the observation fired at
least 2 s after `play`. -/
theorem autoWaitAux_sound :
    ∀ (obs : List (ℚ × String)) (seen : Bool) (i k : Nat),
      autoWaitAux obs seen i = some k →
      ∃ pre t raw post,
        obs = pre ++ (t, raw) :: post ∧ k = i + pre.length ∧
        canonAuto raw = "STOPPED" ∧
        (seen = true ∨
          (∃ p ∈ pre, canonAuto p.2 = "RUNNING" ∨ canonAuto p.2 = "PAUSED") ∨
          2 ≤ t) := by
  intro obs
  induction obs with
  | nil => intro seen i k h; simp [autoWaitAux] at h
  | cons hd rest ih =>
    intro seen i k h
    obtain ⟨t, raw⟩ := hd
    simp only [autoWaitAux] at h
    by_cases hstop : canonAuto raw = "STOPPED"
    · rw [if_pos hstop] at h
      have hseenEq : (seen || decide (canonAuto raw = "RUNNING") ||
          decide (canonAuto raw = "PAUSED")) = seen := by
        cases seen <;> rw [hstop] <;> decide
      rw [hseenEq] at h
      by_cases hg : (!seen && decide (t < 2)) = true
      · rw [if_pos hg] at h
        obtain ⟨pre', t', raw', post', hobs, hk, hstop', hdisj⟩ := ih _ _ _ h
        have hg' : seen = false ∧ t < 2 := by simpa using hg
        refine ⟨(t, raw) :: pre', t', raw', post', by simp [hobs],
          by simp [hk]; omega, hstop', ?_⟩
        rcases hdisj with hseen1 | hpre | ht
        · rw [hg'.1] at hseen1; cases hseen1
        · exact Or.inr (Or.inl
            (by obtain ⟨p, hp, hact⟩ := hpre; exact ⟨p, by simp [hp], hact⟩))
        · exact Or.inr (Or.inr ht)
      · rw [if_neg hg] at h
        cases h
        refine ⟨[], t, raw, rest, by simp, by simp, hstop, ?_⟩
        cases hs : seen
        · right; right
          by_contra hlt
          push_neg at hlt
          apply hg
          simp [hs, hlt]
        · exact Or.inl rfl
    · rw [if_neg hstop] at h
      obtain ⟨pre', t', raw', post', hobs, hk, hstop', hdisj⟩ := ih _ _ _ h
      refine ⟨(t, raw) :: pre', t', raw', post', by simp [hobs],
        by simp [hk]; omega, hstop', ?_⟩
      rcases hdisj with hseen1 | hpre | ht
      · have hseen2 : seen = true ∨ canonAuto raw = "RUNNING" ∨
            canonAuto raw = "PAUSED" := by simpa [or_assoc] using hseen1
        rcases hseen2 with hs | hrun | hpau
        · exact Or.inl hs
        · exact Or.inr (Or.inl ⟨(t, raw), by simp, Or.inl hrun⟩)
        · exact Or.inr (Or.inl ⟨(t, raw), by simp, Or.inr hpau⟩)
      · exact Or.inr (Or.inl
          (by obtain ⟨p, hp, hact⟩ := hpre; exact ⟨p, by simp [hp], hact⟩))
      · exact Or.inr (Or.inr ht)

/-- Soundness of the JSON plan driver's poll loop: a completion at index
`k` happens exactly at an observation whose canonical classification is
STOPPED (with no further condition). -/
theorem jsonPollAux_sound :
    ∀ (obs : List String) (i k : Nat),
      jsonPollAux obs i = some k →
      ∃ pre raw post,
        obs = pre ++ raw :: post ∧ k = i + pre.length ∧
        canonJson raw = .STOPPED := by
  intro obs
  induction obs with
  | nil => intro i k h; simp [jsonPollAux] at h
  | cons raw rest ih =>
    intro i k h
    simp only [jsonPollAux] at h
    by_cases hact : canonJson raw = .RUNNING ∨ canonJson raw = .PAUSED ∨
        canonJson raw = .UNKNOWN
    · rw [if_pos hact] at h
      obtain ⟨pre', raw', post', hobs, hk, hstop'⟩ := ih _ _ h
      exact ⟨raw :: pre', raw', post', by simp [hobs], by simp [hk]; omega,
        hstop'⟩
    · rw [if_neg hact] at h
      by_cases hstop : canonJson raw = .STOPPED
      · rw [if_pos hstop] at h
        cases h
        exact ⟨[], raw, rest, by simp, by simp, hstop⟩
      · rw [if_neg hstop] at h
        obtain ⟨pre', raw', post', hobs, hk, hstop'⟩ := ih _ _ h
        exact ⟨raw :: pre', raw', post', by simp [hobs], by simp [hk]; omega,
          hstop'⟩

/-- Claim C2, counterexample.  In the JSON plan driver a leftover STOPPED
observed at the very first poll — 800 ms after `play`, well inside the ≈2 s
grace window, with no RUNNING/PAUSED ever observed — is honoured
immediately: the phase is reported Completed at index 0.  The claimed guard
(active state seen at least once, or grace window elapsed) does not exist
in this driver. -/
theorem c2_json_early_stop_counterexample :
    jsonPollCompletes ["STOPPED"] = some 0 ∧
    jsonElapsedMs 0 < 2000 ∧
    ∀ raw ∈ ["STOPPED"], canonJson raw ≠ .RUNNING ∧ canonJson raw ≠ .PAUSED :=
  ⟨rfl, by norm_num [jsonElapsedMs, AUTO_POLL_MS], by decide⟩

/-- Claim C2 as amended (status: corrected).  Neither driver ever reports a
step Completed at an observation whose canonical state is RUNNING or
PAUSED: completion happens only at a canonically STOPPED observation.  The
fixed full-loop driver additionally honours STOPPED only after RUNNING or
PAUSED has been observed for the current program or at least 2 s have
elapsed since `play`; the JSON plan driver honours the first canonically
STOPPED observation unconditionally. -/
theorem c2_completion_guard :
    (∀ (obs : List (ℚ × String)) (k : Nat),
        autoWaitCompletes obs = some k →
        ∃ pre t raw post,
          obs = pre ++ (t, raw) :: post ∧ pre.length = k ∧
          canonJson raw = .STOPPED ∧
          ((∃ p ∈ pre, canonJson p.2 = .RUNNING ∨ canonJson p.2 = .PAUSED) ∨
            2 ≤ t)) ∧
    (∀ (obs : List String) (k : Nat),
        jsonPollCompletes obs = some k →
        ∃ pre raw post,
          obs = pre ++ raw :: post ∧ pre.length = k ∧
          canonJson raw = .STOPPED) := by
  constructor
  · intro obs k h
    obtain ⟨pre, t, raw, post, hobs, hk, hstop, hdisj⟩ :=
      autoWaitAux_sound obs false 0 k h
    refine ⟨pre, t, raw, post, hobs, by omega,
      canonJson_stopped_of_auto hstop, ?_⟩
    rcases hdisj with hs | hpre | ht
    · cases hs
    · obtain ⟨p, hp, hact⟩ := hpre
      refine Or.inl ⟨p, hp, ?_⟩
      rcases hact with h1 | h2
      · exact Or.inl (canonJson_running_of_auto h1)
      · exact Or.inr (canonJson_paused_of_auto h2)
    · exact Or.inr ht
  · intro obs k h
    obtain ⟨pre, raw, post, hobs, hk, hstop⟩ := jsonPollAux_sound obs 0 k h
    exact ⟨pre, raw, post, hobs, by omega, hstop⟩

/-- Claim C2 witness: the guard theorem applied to a concrete
fixed-driver run that sees RUNNING and then STOPPED. -/
theorem c2_completion_guard_witness :
    ∃ pre t raw post,
      ([((0 : ℚ), "RUNNING"), ((1 : ℚ), "STOPPED")] : List (ℚ × String)) =
        pre ++ (t, raw) :: post ∧ pre.length = 1 ∧
      canonJson raw = .STOPPED ∧
      ((∃ p ∈ pre, canonJson p.2 = .RUNNING ∨ canonJson p.2 = .PAUSED) ∨
        2 ≤ t) :=
  c2_completion_guard.1 [((0 : ℚ), "RUNNING"), ((1 : ℚ), "STOPPED")] 1
    (by decide)

/-! ## Claim C6 -/

/-- A kept powder entry has a non-empty name and a strictly positive
quantity. -/
theorem parsePowder_valid {p : PyVal} {e : PowderEntry}
    (h : parsePowder p = .ok (some e)) : e.name ≠ "" ∧ 0 < e.qtyMg := by
  cases p with
  | pdict kvs =>
    simp only [parsePowder, Bind.bind, Except.bind] at h
    cases hstrip : pyStripVal (pyOr (dictGet (PyVal.pdict kvs) "name")
        (.pstr "")) with
    | error err => rw [hstrip] at h; cases h
    | ok name =>
      rw [hstrip] at h
      dsimp only at h
      cases hq : pyFloat (dictGetD (PyVal.pdict kvs) "qty_mg" (.pnum 0)) with
      | none => rw [hq] at h; cases h
      | some qty =>
        rw [hq] at h
        dsimp only at h
        split_ifs at h with hcond
        · simp [pure, Except.pure] at h
        · push_neg at hcond
          simp only [pure, Except.pure] at h
          cases h
          exact hcond
  | pnone => simp [parsePowder, pure, Except.pure] at h
  | pbool b => simp [parsePowder, pure, Except.pure] at h
  | pnum q => simp [parsePowder, pure, Except.pure] at h
  | pstr s => simp [parsePowder, pure, Except.pure] at h
  | plist xs => simp [parsePowder, pure, Except.pure] at h

/-- Every powder entry kept by the powder loop is valid. -/
theorem parsePowderList_valid :
    ∀ {ps : List PyVal} {out : List PowderEntry},
      parsePowderList ps = .ok out → ∀ e ∈ out, e.name ≠ "" ∧ 0 < e.qtyMg := by
  intro ps
  induction ps with
  | nil => intro out h e he; cases h; cases he
  | cons p rest ih =>
    intro out h e he
    simp only [parsePowderList, Bind.bind, Except.bind] at h
    cases h1 : parsePowder p with
    | error err => rw [h1] at h; cases h
    | ok r =>
      rw [h1] at h
      cases h2 : parsePowderList rest with
      | error err => rw [h2] at h; cases h
      | ok tail =>
        rw [h2] at h
        cases r with
        | some e1 =>
          cases h
          rcases List.mem_cons.mp he with rfl | hmem
          · exact parsePowder_valid h1
          · exact ih h2 e hmem
        | none =>
          cases h
          exact ih h2 e he

/-- A kept vial entry is valid: non-empty id and at least one valid
powder. -/
theorem parseVialEntry_valid {v : PyVal} {e : VialEntry}
    (h : parseVialEntry v = .ok (some e)) : validVialEntry e := by
  cases v with
  | pdict kvs =>
    simp only [parseVialEntry, Bind.bind, Except.bind] at h
    cases hstrip : pyStripVal (pyOr (dictGet (PyVal.pdict kvs) "vial_id")
        (pyOr (dictGet (PyVal.pdict kvs) "name")
          (pyOr (dictGet (PyVal.pdict kvs) "vial") (.pstr "")))) with
    | error err => rw [hstrip] at h; cases h
    | ok vialId =>
      rw [hstrip] at h
      dsimp only at h
      split_ifs at h with hid
      · simp [pure, Except.pure] at h
      · cases hit : pyIterate (pyOr (dictGet (PyVal.pdict kvs) "powders")
            (.plist [])) with
        | error err => rw [hit] at h; cases h
        | ok elems =>
          rw [hit] at h
          dsimp only at h
          cases hp : parsePowderList elems with
          | error err => rw [hp] at h; cases h
          | ok powders =>
            rw [hp] at h
            dsimp only at h
            split_ifs at h with hemp
            · simp [pure, Except.pure] at h
            · simp only [pure, Except.pure] at h
              cases h
              refine ⟨hid, ?_, parsePowderList_valid hp⟩
              simpa using hemp
  | pnone => simp [parseVialEntry, pure, Except.pure] at h
  | pbool b => simp [parseVialEntry, pure, Except.pure] at h
  | pnum q => simp [parseVialEntry, pure, Except.pure] at h
  | pstr s => simp [parseVialEntry, pure, Except.pure] at h
  | plist xs => simp [parseVialEntry, pure, Except.pure] at h

/-- Every vial entry kept by the vial loop is valid. -/
theorem parseVialList_valid :
    ∀ {vs : List PyVal} {out : List VialEntry},
      parseVialList vs = .ok out → ∀ e ∈ out, validVialEntry e := by
  intro vs
  induction vs with
  | nil => intro out h e he; cases h; cases he
  | cons v rest ih =>
    intro out h e he
    simp only [parseVialList, Bind.bind, Except.bind] at h
    cases h1 : parseVialEntry v with
    | error err => rw [h1] at h; cases h
    | ok r =>
      rw [h1] at h
      cases h2 : parseVialList rest with
      | error err => rw [h2] at h; cases h
      | ok tail =>
        rw [h2] at h
        cases r with
        | some e1 =>
          cases h
          rcases List.mem_cons.mp he with rfl | hmem
          · exact parseVialEntry_valid h1
          · exact ih h2 e hmem
        | none =>
          cases h
          exact ih h2 e he

/-- Every vial entry of a successfully parsed plan is valid. -/
theorem parsePlan_valid {data : PyVal} {plan : List VialEntry}
    (h : parsePlan data = .ok plan) : ∀ e ∈ plan, validVialEntry e := by
  unfold parsePlan at h
  cases data with
  | pdict kvs =>
    cases hv : dictGet (PyVal.pdict kvs) "vials" with
    | plist vs =>
      rw [hv] at h
      exact parseVialList_valid h
    | pnone => rw [hv] at h; cases h; intro e he; cases he
    | pbool b => rw [hv] at h; cases h; intro e he; cases he
    | pnum q => rw [hv] at h; cases h; intro e he; cases he
    | pstr s => rw [hv] at h; cases h; intro e he; cases he
    | pdict kvs2 => rw [hv] at h; cases h; intro e he; cases he
  | pnone => cases h; intro e he; cases he
  | pbool b => cases h; intro e he; cases he
  | pnum q => cases h; intro e he; cases he
  | pstr s => cases h; intro e he; cases he
  | plist xs => cases h; intro e he; cases he

/-- Claim C6, counterexample.  A malformed vial entry is not always
silently dropped: an entry whose `vial_id` is a truthy non-string (the
number 5) makes `(... or "").strip()` raise `AttributeError`, aborting the
whole load instead of dropping the entry — `on_load_json` neither accepts
nor reports a format failure, the exception escapes. -/
theorem c6_malformed_entry_aborts :
    parsePlan (.pdict [("vials", .plist [.pdict [("vial_id", .pnum 5)]])]) =
      .error (.attributeError "strip") ∧
    onLoadJson (.pdict [("vials", .plist [.pdict [("vial_id", .pnum 5)]])]) =
      .raisedErr (.attributeError "strip") :=
  ⟨rfl, rfl⟩

/-- Claim C6 as amended (status: corrected).  A vial entry is accepted into
the plan only if it has a non-empty id and at least one powder entry with a
non-empty name and strictly positive quantity; entries that are not dicts,
have a falsy/empty id, or reduce to zero valid powders are silently
dropped (shown on a document mixing all of these with one valid entry); and
a load whose parse yields zero valid vials is rejected as a format failure.
However an entry whose id (or a powder's name) is a truthy non-string
raises and aborts the whole load (see the counterexample). -/
theorem c6_parse_amended :
    (∀ (data : PyVal) (plan : List VialEntry),
        parsePlan data = .ok plan → ∀ e ∈ plan, validVialEntry e) ∧
    parsePlan (.pdict [("vials", .plist
        [.pstr "junk",
         .pdict [("vial_id", .pstr "")],
         .pdict [("vial_id", .pstr "V9"), ("powders", .plist
            [.pdict [("name", .pstr ""), ("qty_mg", .pnum 4)],
             .pdict [("name", .pstr "X"), ("qty_mg", .pnum 0)],
             .pdict [("name", .pstr "Y"), ("qty_mg", .pstr "abc")]])],
         .pdict [("vial_id", .pstr "V1"), ("powders", .plist
            [.pdict [("name", .pstr "NaHCO3"), ("qty_mg", .pnum 5)]])]])]) =
      .ok [⟨"V1", [⟨"NaHCO3", 5⟩]⟩] ∧
    (∀ data : PyVal, parsePlan data = .ok [] →
      onLoadJson data = .rejectedEmpty) :=
  ⟨fun _ _ h => parsePlan_valid h, rfl,
   fun _ h => by unfold onLoadJson; rw [h]⟩

/-- Claim C6 witness: the amended theorem's soundness part applied to a
concrete accepted document establishes that its single entry is valid. -/
theorem c6_parse_amended_witness :
    validVialEntry ⟨"V1", [⟨"NaHCO3", 5⟩]⟩ :=
  (c6_parse_amended.1
      (.pdict [("vials", .plist
        [.pdict [("vial_id", .pstr "V1"), ("powders", .plist
          [.pdict [("name", .pstr "NaHCO3"), ("qty_mg", .pnum 5)]])]])])
      [⟨"V1", [⟨"NaHCO3", 5⟩]⟩] rfl)
    ⟨"V1", [⟨"NaHCO3", 5⟩]⟩ (List.mem_singleton.mpr rfl)

/-! ## Claim C7 -/

/-- Claim C7, counterexample.  A submission whose `Outcome` is "Success"
and whose `StartDosingJobListError` is absent starts the
notification-consumer worker even when job-level errors (`JobErrors`) are
present — the code never consults `JobErrors`, contradicting the claimed
"if and only if ... no job-level errors". -/
theorem c7_joberrors_ignored_counterexample :
    workerStartDecision
        ⟨some "Success", some 42, none, none, some ["job error"]⟩ = true ∧
    (⟨some "Success", some 42, none, none,
        some ["job error"]⟩ : DosingSubmission).jobErrors ≠ none ∧
    (⟨some "Success", some 42, none, none,
        some ["job error"]⟩ : DosingSubmission).jobErrors ≠ some [] := by
  refine ⟨rfl, ?_, ?_⟩ <;> simp

/-- Claim C7 as amended (status: corrected).  The notification-consumer
worker is started if and only if the submission's `Outcome` equals
"Success" and the `StartDosingJobListError` field is falsy (absent or
empty); the `JobErrors` field does not influence the decision.  In
particular a submission with `Outcome ≠ "Success"` never starts the
worker. -/
theorem c7_worker_start_iff :
    ∀ r : DosingSubmission,
      (workerStartDecision r = true ↔
        r.outcome = some "Success" ∧
          (r.startDosingJobListError = none ∨
            r.startDosingJobListError = some "")) ∧
      (r.outcome ≠ some "Success" → workerStartDecision r = false) := by
  intro r
  constructor
  · unfold workerStartDecision truthyStr
    cases hs : r.startDosingJobListError with
    | none => simp
    | some s =>
      simp only [Bool.and_eq_true, decide_eq_true_eq, Bool.not_eq_true']
      constructor
      · rintro ⟨h1, h2⟩
        exact ⟨h1, Or.inr (by simpa using h2)⟩
      · rintro ⟨h1, h2 | h2⟩
        · cases h2
        · obtain rfl : s = "" := by simpa using h2
          exact ⟨h1, by simp⟩
  · intro hne
    unfold workerStartDecision
    cases ho : r.outcome with
    | none => simp
    | some o =>
      have : ¬(o = "Success") := fun hh => hne (by rw [ho, hh])
      simp [this]

/-- Claim C7 witness: a submission with `Outcome = "Failure"` does not
start the worker. -/
theorem c7_worker_start_iff_witness :
    workerStartDecision ⟨some "Failure", none, none, none, none⟩ = false :=
  (c7_worker_start_iff ⟨some "Failure", none, none, none, none⟩).2 (by simp)

/-! ## Claim C8 -/

/-- Claim C8 (status: confirmed).  An explicit dosing cancel issues the
device-side cancellations in the order job-list, then current-task (only
when the job-list reply was not acknowledged, i.e. its outcome was neither
absent nor "Success"), then command-id (only when the task reply was also
not acknowledged); a raised call aborts the chain.  On every path —
including raised or failing device-side cancels — the local stop event is
set whenever one exists, and the notification-consumer loop exits at its
next stop-event check. -/
theorem c8_cancel_escalation :
    ∀ (r1 r2 r3 : CallResult) (hasStop : Bool),
      (cancelCalls r1 r2 r3).head? = some .jobList ∧
      (cancelCalls r1 r2 r3 = [.jobList] ∨
        cancelCalls r1 r2 r3 = [.jobList, .task] ∨
        cancelCalls r1 r2 r3 = [.jobList, .task, .command]) ∧
      (CancelOp.task ∈ cancelCalls r1 r2 r3 ↔
        ∃ o1, r1 = .replied o1 ∧ cancelAck o1 = false) ∧
      (CancelOp.command ∈ cancelCalls r1 r2 r3 ↔
        (∃ o1, r1 = .replied o1 ∧ cancelAck o1 = false) ∧
        (∃ o2, r2 = .replied o2 ∧ cancelAck o2 = false)) ∧
      cancelSetsStop hasStop r1 r2 r3 = hasStop ∧
      (hasStop = true → consumerExitsOnStop true = true) := by
  intro r1 r2 r3 hasStop
  refine ⟨?_, ?_, ?_, ?_, rfl, fun _ => rfl⟩
  · cases r1 with
    | raised => rfl
    | replied o1 =>
      by_cases h1 : cancelAck o1 = true
      · simp [cancelCalls, h1]
      · cases r2 with
        | raised => simp [cancelCalls, h1]
        | replied o2 =>
          by_cases h2 : cancelAck o2 = true
          · simp [cancelCalls, h1, h2]
          · cases r3 <;> simp [cancelCalls, h1, h2]
  · cases r1 with
    | raised => exact Or.inl rfl
    | replied o1 =>
      by_cases h1 : cancelAck o1 = true
      · exact Or.inl (by simp [cancelCalls, h1])
      · cases r2 with
        | raised => exact Or.inr (Or.inl (by simp [cancelCalls, h1]))
        | replied o2 =>
          by_cases h2 : cancelAck o2 = true
          · exact Or.inr (Or.inl (by simp [cancelCalls, h1, h2]))
          · cases r3 with
            | raised => exact Or.inr (Or.inr (by simp [cancelCalls, h1, h2]))
            | replied o3 =>
              exact Or.inr (Or.inr (by simp [cancelCalls, h1, h2]))
  · cases r1 with
    | raised => simp [cancelCalls]
    | replied o1 =>
      by_cases h1 : cancelAck o1 = true
      · simp [cancelCalls, h1]
      · have h1f : cancelAck o1 = false := by simpa using h1
        cases r2 with
        | raised => simp [cancelCalls, h1, h1f]
        | replied o2 =>
          by_cases h2 : cancelAck o2 = true
          · simp [cancelCalls, h1, h2, h1f]
          · cases r3 <;> simp [cancelCalls, h1, h2, h1f]
  · cases r1 with
    | raised => simp [cancelCalls]
    | replied o1 =>
      by_cases h1 : cancelAck o1 = true
      · simp [cancelCalls, h1]
      · have h1f : cancelAck o1 = false := by simpa using h1
        cases r2 with
        | raised => simp [cancelCalls, h1, h1f]
        | replied o2 =>
          by_cases h2 : cancelAck o2 = true
          · simp [cancelCalls, h1, h2, h1f]
          · have h2f : cancelAck o2 = false := by simpa using h2
            cases r3 <;> simp [cancelCalls, h1, h2, h1f, h2f]

/-- Claim C8 witness: with a job-list cancel that replies "Failure", a task
cancel that raises, and a stop event present, only the first two device
calls happen and the stop event is set. -/
theorem c8_cancel_escalation_witness :
    (cancelCalls (.replied (some "Failure")) .raised
        (.replied (some "Success"))).head? = some .jobList ∧
    (cancelCalls (.replied (some "Failure")) .raised
        (.replied (some "Success")) = [.jobList] ∨
      cancelCalls (.replied (some "Failure")) .raised
        (.replied (some "Success")) = [.jobList, .task] ∨
      cancelCalls (.replied (some "Failure")) .raised
        (.replied (some "Success")) = [.jobList, .task, .command]) ∧
    (CancelOp.task ∈ cancelCalls (.replied (some "Failure")) .raised
        (.replied (some "Success")) ↔
      ∃ o1, (CallResult.replied (some "Failure")) = .replied o1 ∧
        cancelAck o1 = false) ∧
    (CancelOp.command ∈ cancelCalls (.replied (some "Failure")) .raised
        (.replied (some "Success")) ↔
      (∃ o1, (CallResult.replied (some "Failure")) = .replied o1 ∧
        cancelAck o1 = false) ∧
      (∃ o2, (CallResult.raised : CallResult) = .replied o2 ∧
        cancelAck o2 = false)) ∧
    cancelSetsStop true (.replied (some "Failure")) .raised
        (.replied (some "Success")) = true ∧
    (true = true → consumerExitsOnStop true = true) :=
  c8_cancel_escalation (.replied (some "Failure")) .raised
    (.replied (some "Success")) true

/-! ## Claim C9 -/

/-- Claim C9 (status: confirmed).  For fixed acquired samples, the
effective threshold of the pan-empty check equals
`max(threshold_mg/1000, 5·std)` (the configured threshold converted to
grams), is monotonically non-decreasing in the standard deviation, and the
pan is declared empty exactly when `|mean|` is below it. -/
theorem c9_threshold_monotone :
    ∀ (thresholdMg stdA stdB std : ℚ) (vals : List ℚ),
      stdA ≤ stdB → vals ≠ [] →
      emptyThr thresholdMg stdA ≤ emptyThr thresholdMg stdB ∧
      ((isPanEmpty thresholdMg vals std).1 = true ↔
        |sampleMean vals| < emptyThr thresholdMg std) ∧
      (isPanEmpty thresholdMg vals std).2.thresholdG =
        emptyThr thresholdMg std := by
  intro thresholdMg stdA stdB std vals h1 h2
  refine ⟨?_, ?_, ?_⟩
  · exact max_le_max le_rfl (by linarith)
  · cases vals with
    | nil => exact absurd rfl h2
    | cons v rest =>
      show decide (|sampleMean (v :: rest)| <
          emptyThr thresholdMg std) = true ↔ _
      exact decide_eq_true_iff
  · cases vals with
    | nil => exact absurd rfl h2
    | cons v rest => rfl

/-- Claim C9 witness: the threshold/emptiness relation at a concrete
one-sample acquisition with standard deviations 0 ≤ 1. -/
theorem c9_threshold_monotone_witness :
    emptyThr 9 0 ≤ emptyThr 9 1 ∧
    ((isPanEmpty 9 [1] 0).1 = true ↔ |sampleMean [1]| < emptyThr 9 0) ∧
    (isPanEmpty 9 [1] 0).2.thresholdG = emptyThr 9 0 :=
  c9_threshold_monotone 9 0 1 0 [1] (by norm_num) (by simp)

/-! ## Claim C10 -/

/-- Claim C10 (status: confirmed).  When neither the stable nor the
immediate reply yields an extractable weight sample and the immediate
reply carries no explicit (truthy) non-Success outcome, `get_weights`
returns the `None/None` pair and `get_weight` returns exactly `0.0` — not
an error and not a distinguished "no reading" value, so a caller cannot
tell a failed reading from a genuine zero. -/
theorem c10_get_weight_zero :
    ∀ stable immediate : WResp,
      extractWS stable = none → extractWS immediate = none →
      ¬(truthyStr immediate.outcome = true ∧
        immediate.outcome ≠ some "Success") →
      getWeights stable immediate = .ok (none, none) ∧
      getWeight stable immediate = .ok 0 := by
  intro s im h1 h2 h3
  have hw : getWeights s im = .ok (none, none) := by
    unfold getWeights
    rw [h1, h2, if_neg h3]
  refine ⟨hw, ?_⟩
  unfold getWeight
  rw [hw]

/-- Claim C10 witness: a pair of entirely empty replies produces the zero
reading. -/
theorem c10_get_weight_zero_witness :
    getWeights ⟨none, none, none, none⟩ ⟨none, none, none, none⟩ =
      .ok (none, none) ∧
    getWeight ⟨none, none, none, none⟩ ⟨none, none, none, none⟩ = .ok 0 :=
  c10_get_weight_zero ⟨none, none, none, none⟩ ⟨none, none, none, none⟩
    rfl rfl (by simp [truthyStr])

end APD
